import Mathlib

/-!
Verification development for the SafeScanX client-side scan orchestrator.

The definitions below are a shallow embedding of the repository's source:
- `calculateSHA256`, `formatFileSize` from `src/utils/fileUtils.ts`
  (the Web Crypto `crypto.subtle.digest('SHA-256', ...)` platform primitive
  is modelled by a full executable SHA-256 over byte lists);
- the scan data model from `src/types/scan.ts`;
- `validateFile` / `handleFileSelect` from `src/components/FileUpload.tsx`;
- `performScan` from `src/App.tsx`, with the browser environment
  (configuration variables, `fetch`, `response.json()`, `FileReader`,
  `Date.toISOString`) passed in explicitly as a `ScanEnv`, and the
  observable effects (`setScanProgress` calls, outbound requests,
  `setScanResults`) collected in a `ScanOutcome`.

Machine integers are `Nat` with explicit `% 2 ^ 32` where 32-bit overflow
matters; JS exceptions are an explicit `JsThrown` value; fallible platform
calls are `Except JsThrown _` fields of the environment.
-/

/-! ## 32-bit word operations (model of JS / WebCrypto arithmetic) -/

/-- Bitwise exclusive-or of the low `k` bits of two naturals (fuel-based
structural recursion so the kernel can evaluate it). -/
def bitXor : Nat → Nat → Nat → Nat
  | 0, _, _ => 0
  | k + 1, a, b =>
      (if (a % 2 == 1) != (b % 2 == 1) then 1 else 0) + 2 * bitXor k (a / 2) (b / 2)

/-- Bitwise conjunction of the low `k` bits of two naturals. -/
def bitAnd : Nat → Nat → Nat → Nat
  | 0, _, _ => 0
  | k + 1, a, b =>
      (if (a % 2 == 1) && (b % 2 == 1) then 1 else 0) + 2 * bitAnd k (a / 2) (b / 2)

/-- 32-bit exclusive-or. -/
def xor32 (a b : Nat) : Nat := bitXor 32 a b

/-- 32-bit conjunction. -/
def and32 (a b : Nat) : Nat := bitAnd 32 a b

/-- 32-bit complement. -/
def not32 (a : Nat) : Nat := bitXor 32 a 0xFFFFFFFF

/-- Right rotation of a 32-bit word by `n` places (valid for `a < 2 ^ 32`). -/
def rotr32 (n a : Nat) : Nat := (a / 2 ^ n + a * 2 ^ (32 - n)) % 2 ^ 32

/-- Logical right shift of a 32-bit word. -/
def shr32 (n a : Nat) : Nat := a / 2 ^ n

/-- Addition modulo `2 ^ 32`. -/
def add32 (a b : Nat) : Nat := (a + b) % 2 ^ 32

/-! ## SHA-256 (model of `crypto.subtle.digest('SHA-256', buffer)`) -/

/-- The SHA-256 `Ch` function. -/
def shaCh (e f g : Nat) : Nat := xor32 (and32 e f) (and32 (not32 e) g)

/-- The SHA-256 `Maj` function. -/
def shaMaj (a b c : Nat) : Nat := xor32 (and32 a b) (xor32 (and32 a c) (and32 b c))

/-- The SHA-256 big sigma-0 function. -/
def bigSigma0 (a : Nat) : Nat := xor32 (rotr32 2 a) (xor32 (rotr32 13 a) (rotr32 22 a))

/-- The SHA-256 big sigma-1 function. -/
def bigSigma1 (e : Nat) : Nat := xor32 (rotr32 6 e) (xor32 (rotr32 11 e) (rotr32 25 e))

/-- The SHA-256 small sigma-0 function. -/
def smallSigma0 (x : Nat) : Nat := xor32 (rotr32 7 x) (xor32 (rotr32 18 x) (shr32 3 x))

/-- The SHA-256 small sigma-1 function. -/
def smallSigma1 (x : Nat) : Nat := xor32 (rotr32 17 x) (xor32 (rotr32 19 x) (shr32 10 x))

/-- The 64 SHA-256 round constants. -/
def shaK : List Nat :=
  [1116352408, 1899447441, 3049323471, 3921009573, 961987163, 1508970993,
   2453635748, 2870763221, 3624381080, 310598401, 607225278, 1426881987,
   1925078388, 2162078206, 2614888103, 3248222580, 3835390401, 4022224774,
   264347078, 604807628, 770255983, 1249150122, 1555081692, 1996064986,
   2554220882, 2821834349, 2952996808, 3210313671, 3336571891, 3584528711,
   113926993, 338241895, 666307205, 773529912, 1294757372, 1396182291,
   1695183700, 1986661051, 2177026350, 2456956037, 2730485921, 2820302411,
   3259730800, 3345764771, 3516065817, 3600352804, 4094571909, 275423344,
   430227734, 506948616, 659060556, 883997877, 958139571, 1322822218,
   1537002063, 1747873779, 1955562222, 2024104815, 2227730452, 2361852424,
   2428436474, 2756734187, 3204031479, 3329325298]

/-- The eight 32-bit working variables of the SHA-256 compression function. -/
structure Hash8 where
  a : Nat
  b : Nat
  c : Nat
  d : Nat
  e : Nat
  f : Nat
  g : Nat
  h : Nat

/-- SHA-256 initial hash value. -/
def shaInit : Hash8 :=
  ⟨0x6a09e667, 0xbb67ae85, 0x3c6ef372, 0xa54ff53a, 0x510e527f, 0x9b05688c, 0x1f83d9ab, 0x5be0cd19⟩

/-- Big-endian 64-bit length field appended by SHA-256 padding. -/
def lengthBytes (n : Nat) : List Nat :=
  [n / 2 ^ 56 % 256, n / 2 ^ 48 % 256, n / 2 ^ 40 % 256, n / 2 ^ 32 % 256,
   n / 2 ^ 24 % 256, n / 2 ^ 16 % 256, n / 2 ^ 8 % 256, n % 256]

/-- SHA-256 message padding: a `0x80` byte, zero bytes up to 56 mod 64,
then the bit length as eight big-endian bytes. -/
def padMessage (msg : List Nat) : List Nat :=
  msg ++ [0x80] ++ List.replicate ((119 - msg.length % 64) % 64) 0 ++ lengthBytes (8 * msg.length)

set_option linter.unusedVariables false in
/-- Split a byte list into 64-byte blocks. -/
def toBlocks (l : List Nat) : List (List Nat) :=
  if h : l = [] then [] else l.take 64 :: toBlocks (l.drop 64)
termination_by l.length
decreasing_by
  simp only [List.length_drop]
  have hl : l.length ≠ 0 := fun hh => h (List.length_eq_zero.mp hh)
  omega

/-- Read the `i`-th big-endian 32-bit word of a 64-byte block. -/
def wordAt (block : List Nat) (i : Nat) : Nat :=
  (block.getD (4 * i) 0 * 2 ^ 24 + block.getD (4 * i + 1) 0 * 2 ^ 16 +
   block.getD (4 * i + 2) 0 * 2 ^ 8 + block.getD (4 * i + 3) 0) % 2 ^ 32

/-- The 64-entry SHA-256 message schedule of one block. -/
def messageSchedule (block : List Nat) : List Nat :=
  (List.range 48).foldl
    (fun w _ =>
      w ++ [add32 (smallSigma1 (w.getD (w.length - 2) 0))
             (add32 (w.getD (w.length - 7) 0)
               (add32 (smallSigma0 (w.getD (w.length - 15) 0)) (w.getD (w.length - 16) 0)))])
    ((List.range 16).map (wordAt block))

/-- One round of the SHA-256 compression function. -/
def shaRound (s : Hash8) (k w : Nat) : Hash8 :=
  let t1 := add32 s.h (add32 (bigSigma1 s.e) (add32 (shaCh s.e s.f s.g) (add32 k w)))
  let t2 := add32 (bigSigma0 s.a) (shaMaj s.a s.b s.c)
  ⟨add32 t1 t2, s.a, s.b, s.c, add32 s.d t1, s.e, s.f, s.g⟩

/-- Process one 64-byte block. -/
def processBlock (hv : Hash8) (block : List Nat) : Hash8 :=
  let w := messageSchedule block
  let s := (List.range 64).foldl (fun s i => shaRound s (shaK.getD i 0) (w.getD i 0)) hv
  ⟨add32 hv.a s.a, add32 hv.b s.b, add32 hv.c s.c, add32 hv.d s.d,
   add32 hv.e s.e, add32 hv.f s.f, add32 hv.g s.g, add32 hv.h s.h⟩

/-- The four big-endian bytes of a 32-bit word. -/
def wordBytesBE (w : Nat) : List Nat :=
  [w / 2 ^ 24 % 256, w / 2 ^ 16 % 256, w / 2 ^ 8 % 256, w % 256]

/-- The 32 digest bytes of a final hash state. -/
def hash8Bytes (s : Hash8) : List Nat :=
  wordBytesBE s.a ++ wordBytesBE s.b ++ wordBytesBE s.c ++ wordBytesBE s.d ++
  wordBytesBE s.e ++ wordBytesBE s.f ++ wordBytesBE s.g ++ wordBytesBE s.h

/-- SHA-256 of a byte list: the model of `crypto.subtle.digest('SHA-256', buffer)`
used by `calculateSHA256` in `src/utils/fileUtils.ts`. -/
def sha256 (msg : List Nat) : List Nat :=
  hash8Bytes (List.foldl processBlock shaInit (toBlocks (padMessage msg)))

/-! ## `src/utils/fileUtils.ts` -/

/-- Model of a JS `File`: declared name, declared size, and content bytes. -/
structure JsFile where
  name : String
  size : Nat
  bytes : List Nat
deriving DecidableEq

/-- Model of JS `b.toString(16)` on a natural number: lowercase base-16 digits. -/
def jsHexDigits (n : Nat) : List Char := Nat.toDigits 16 n

/-- Model of JS `String.prototype.padStart(n, c)` on a character list:
prepend `c` until the length is at least `n`. -/
def jsPadStart (l : List Char) (n : Nat) (c : Char) : List Char :=
  List.replicate (n - l.length) c ++ l

/-- One byte of the digest rendered as in
`b.toString(16).padStart(2, '0')` (fileUtils.ts line 5). -/
def byteHex (b : Nat) : List Char := jsPadStart (jsHexDigits b) 2 '0'

/-- `calculateSHA256` from `src/utils/fileUtils.ts` lines 1-7: digest the
file's bytes with SHA-256 and render each byte as two lowercase hex digits,
joined with `''`. -/
def calculateSHA256 (file : JsFile) : String :=
  String.mk (((sha256 file.bytes).map byteHex).flatten)

/-- `formatFileSize` from `src/utils/fileUtils.ts`. The JS original picks the
unit index with `Math.floor(Math.log(bytes) / Math.log(1024))`, modelled here
by `Nat.log 1024`, and prints `parseFloat((bytes / 1024 ** i).toFixed(2))`,
which on the exact-quotient inputs used in this development (`bytes = 0` and
`bytes = 100 * 1024 * 1024`) prints the integer quotient. -/
def formatFileSize (bytes : Nat) : String :=
  if bytes == 0 then "0 Bytes"
  else
    toString (bytes / 1024 ^ Nat.log 1024 bytes) ++ " " ++
      (["Bytes", "KB", "MB", "GB"].getD (Nat.log 1024 bytes) "")

/-! ## Data model (`src/types/scan.ts`) -/

/-- The `ScanProgress.stage` union from `src/types/scan.ts` line 8. The
specification's stage vocabulary maps onto these code names as
intake ↦ `uploading`, fingerprinting ↦ `hashing`,
reputation-check ↦ `hashCheck` (code string `'hash-check'`),
heuristic ↦ `heuristic`, static-pattern ↦ `static`,
behavioral ↦ `behavioral`, complete ↦ `complete`, failed ↦ `error`. -/
inductive ScanStage where
  | uploading
  | hashing
  | hashCheck
  | heuristic
  | static
  | behavioral
  | complete
  | error
deriving DecidableEq

/-- The `ScanProgress` interface from `src/types/scan.ts` lines 7-11
(the specification's ProgressEvent; `progress` is its percentComplete). -/
structure ScanProgress where
  stage : ScanStage
  progress : Nat
  message : String
deriving DecidableEq

/-- The `FileUpload` interface from `src/types/scan.ts` lines 1-5. -/
structure FileUpload where
  file : JsFile
  sha256Hash : String
  uploadProgress : Nat
deriving DecidableEq

/-- The `overallVerdict` union from `src/types/scan.ts` line 53. -/
inductive Verdict where
  | safe
  | suspicious
  | malicious
  | critical
deriving DecidableEq

/-- The `ScanResult` interface from `src/types/scan.ts` lines 51-61. The four
structured sub-results and `externalSources` are opaque payloads passed
through verbatim by the orchestrator, represented by their serialized form. -/
structure ScanResult where
  fileHashId : String
  overallVerdict : Verdict
  threatScore : Int
  hashCheckResult : String
  heuristicResult : String
  staticAnalysisResult : String
  behavioralAnalysisResult : String
  externalSources : String
deriving DecidableEq

/-- The `CompleteScanData` interface from `src/types/scan.ts` lines 63-70
(the specification's ScanRecord). -/
structure CompleteScanData where
  scanId : String
  fileName : String
  fileSize : Nat
  sha256Hash : String
  scanTimestamp : String
  result : ScanResult
deriving DecidableEq

/-! ## `src/components/FileUpload.tsx` -/

/-- `MAX_FILE_SIZE` from `src/components/FileUpload.tsx` line 11. -/
def MAX_FILE_SIZE : Nat := 100 * 1024 * 1024

/-- `validateFile` from `src/components/FileUpload.tsx` lines 19-24. -/
def validateFile (file : JsFile) : Option String :=
  if file.size > MAX_FILE_SIZE then
    some ("File size exceeds the maximum limit of " ++ formatFileSize MAX_FILE_SIZE)
  else
    none

/-- Observable outcome of one `handleFileSelect` call: the validation error
shown (`setError`), whether `calculateSHA256` was invoked, and the argument
of the `onFileSelect` callback when it fires. -/
structure UploadOutcome where
  errorMsg : Option String
  hashComputed : Bool
  selected : Option FileUpload
deriving DecidableEq

/-- `handleFileSelect` from `src/components/FileUpload.tsx` lines 26-54: on a
validation error the function sets the error and returns before any hashing;
otherwise it computes the SHA-256 hash and invokes `onFileSelect` with
`{ file, sha256Hash, uploadProgress: 0 }`. The hashing itself is pure in this
model, so the surrounding try/catch for a rejected digest promise has no
reachable catch branch. -/
def handleFileSelect (file : JsFile) : UploadOutcome :=
  match validateFile file with
  | some validationError =>
      { errorMsg := some validationError, hashComputed := false, selected := none }
  | none =>
      { errorMsg := none, hashComputed := true,
        selected := some { file := file, sha256Hash := calculateSHA256 file, uploadProgress := 0 } }

/-! ## `src/App.tsx` -/

/-- A JS value thrown as an exception: either an `Error` object carrying a
`message`, or any other value. -/
inductive JsThrown where
  | errorObj (message : String)
  | nonError
deriving DecidableEq

/-- The catch clause of `performScan` (App.tsx lines 154-161):
`error instanceof Error ? error.message : 'An error occurred during scanning'`. -/
def caughtMessage : JsThrown → String
  | .errorObj m => m
  | .nonError => "An error occurred during scanning"

/-- Model of a `fetch` response as consumed by `performScan`: `ok` flag and
`statusText`; the parsed JSON body is delivered separately by the
environment's `jsonResult`. -/
structure HttpResponse where
  ok : Bool
  statusText : String
deriving DecidableEq

/-- The parsed response envelope consumed by `performScan`
(`{ success, scanId, error, result }`, cf. spec section 6). -/
structure ScanData where
  success : Bool
  scanId : String
  error : Option String
  result : ScanResult
deriving DecidableEq

deriving instance DecidableEq for Except

/-- The browser environment of one `performScan` run: outcomes of
`readFileAsText`, the two `import.meta.env` configuration values
(`none` models `undefined`), the `fetch` call, `response.json()`, and
`new Date().toISOString()`. -/
structure ScanEnv where
  readFileResult : Except JsThrown String
  supabaseUrl : Option String
  supabaseAnonKey : Option String
  fetchResult : Except JsThrown HttpResponse
  jsonResult : Except JsThrown ScanData
  timestamp : String
deriving DecidableEq

/-- The JSON body of the outbound request (App.tsx lines 114-119). The body
has exactly these four fields. -/
structure RequestBody where
  sha256Hash : String
  fileName : String
  fileSize : Nat
  fileContent : String
deriving DecidableEq

/-- One outbound `fetch` invocation (App.tsx lines 108-120). -/
structure OutboundRequest where
  url : String
  method : String
  authorization : String
  contentType : String
  body : RequestBody
deriving DecidableEq

/-- The observable effects of one `performScan` run: the `setScanProgress`
calls in order, the `fetch` invocations in order, and the final
`setScanResults` value (`none` when it is never called). -/
structure ScanOutcome where
  events : List ScanProgress
  requests : List OutboundRequest
  scanResults : Option CompleteScanData
deriving DecidableEq

/-- JS falsiness of an optional string (`!x` on `undefined` or `''`). -/
def jsFalsy : Option String → Bool
  | none => true
  | some s => s == ""

/-- The URL placeholder sentinel checked at App.tsx line 102. -/
def urlPlaceholder : String := "https://your-project-ref.supabase.co"

/-- The anon-key placeholder sentinel checked at App.tsx line 102. -/
def keyPlaceholder : String := "your-anon-key-here"

/-- The configuration guard of App.tsx line 102:
`!supabaseUrl || supabaseUrl === urlPlaceholder || !supabaseAnonKey || supabaseAnonKey === keyPlaceholder`. -/
def configInvalid (url key : Option String) : Bool :=
  jsFalsy url || url == some urlPlaceholder || jsFalsy key || key == some keyPlaceholder

/-- The configuration error message thrown at App.tsx line 103. -/
def configErrorMessage : String :=
  "Supabase configuration missing or using placeholder values. Please update your .env file with actual Supabase URL and anon key."

/-- JS `a || b` on an optional string against a default (`''` is falsy),
as in `scanData.error || 'Scan failed'` (App.tsx line 129). -/
def jsOrString : Option String → String → String
  | some s, d => if s == "" then d else s
  | none, d => d

/-- The six staged `setScanProgress` calls of App.tsx lines 37-97, emitted in
this order before the remote invocation on every run (the synthetic pacing
delays between them have no observable effect in this model). -/
def pacingEvents : List ScanProgress :=
  [⟨.uploading, 10, "File uploaded successfully"⟩,
   ⟨.hashing, 20, "SHA-256 hash generated"⟩,
   ⟨.hashCheck, 30, "Checking hash against threat databases..."⟩,
   ⟨.heuristic, 50, "Performing heuristic analysis..."⟩,
   ⟨.static, 70, "Analyzing file content for malicious patterns..."⟩,
   ⟨.behavioral, 85, "Querying behavioral analysis databases..."⟩]

/-- The single outbound request built at App.tsx lines 106-120: POST to
`supabaseUrl + '/functions/v1/malware-scan'` with a bearer credential and the
four-field JSON body. Its `fileContent` is the `readFileAsText` result, with
a read failure swallowed into `''` by the inner try/catch of lines 54-60. -/
def buildRequest (env : ScanEnv) (fileUpload : FileUpload) : OutboundRequest :=
  { url := env.supabaseUrl.getD "" ++ "/functions/v1/malware-scan",
    method := "POST",
    authorization := "Bearer " ++ env.supabaseAnonKey.getD "",
    contentType := "application/json",
    body := { sha256Hash := fileUpload.sha256Hash,
              fileName := fileUpload.file.name,
              fileSize := fileUpload.file.size,
              fileContent := match env.readFileResult with
                             | .ok s => s
                             | .error _ => "" } }

/-- `performScan` from `src/App.tsx` lines 34-162, as a pure function from
the environment and the selected `FileUpload` to the observable outcome.
The source's single try/catch around the whole body maps each throwing
branch (configuration guard, rejected `fetch`, non-ok response, rejected
`response.json()`, `success: false` envelope) to a terminal
`⟨error, 0, message⟩` event appended after the six pacing events, with
`setScanResults` never called; the success path emits
`⟨complete, 100, 'Analysis complete!'⟩` and then sets the results record. -/
def performScan (env : ScanEnv) (fileUpload : FileUpload) : ScanOutcome :=
  if configInvalid env.supabaseUrl env.supabaseAnonKey then
    { events := pacingEvents ++ [⟨.error, 0, configErrorMessage⟩],
      requests := [], scanResults := none }
  else
    match env.fetchResult with
    | .error e =>
        { events := pacingEvents ++ [⟨.error, 0, caughtMessage e⟩],
          requests := [buildRequest env fileUpload], scanResults := none }
    | .ok response =>
        if !response.ok then
          { events := pacingEvents ++ [⟨.error, 0, "Scan failed: " ++ response.statusText⟩],
            requests := [buildRequest env fileUpload], scanResults := none }
        else
          match env.jsonResult with
          | .error e =>
              { events := pacingEvents ++ [⟨.error, 0, caughtMessage e⟩],
                requests := [buildRequest env fileUpload], scanResults := none }
          | .ok scanData =>
              if !scanData.success then
                { events := pacingEvents ++ [⟨.error, 0, jsOrString scanData.error "Scan failed"⟩],
                  requests := [buildRequest env fileUpload], scanResults := none }
              else
                { events := pacingEvents ++ [⟨.complete, 100, "Analysis complete!"⟩],
                  requests := [buildRequest env fileUpload],
                  scanResults := some { scanId := scanData.scanId,
                                        fileName := fileUpload.file.name,
                                        fileSize := fileUpload.file.size,
                                        sha256Hash := fileUpload.sha256Hash,
                                        scanTimestamp := env.timestamp,
                                        result := scanData.result } }

/-- Well-formedness of the platform error values an environment can deliver:
an `Error` rejected by `fetch` or `response.json()` carries a non-empty
message (true of the browser's `TypeError` / `SyntaxError` rejections, which
is the platform behaviour outside this repository's code). -/
def envErrorMessagesOk (env : ScanEnv) : Bool :=
  (match env.fetchResult with
   | .error (.errorObj m) => m != ""
   | _ => true) &&
  (match env.jsonResult with
   | .error (.errorObj m) => m != ""
   | _ => true)

/-! ## Concrete fixtures used by witnesses and counterexamples -/

/-- The sixteen lowercase hexadecimal digit characters. -/
def hexAlphabet : List Char := "0123456789abcdef".toList

/-- A 12-byte ASCII submission (the bytes of the text `hello world!`). -/
def fileA : JsFile :=
  ⟨"hello.txt", 12, [104, 101, 108, 108, 111, 32, 119, 111, 114, 108, 100, 33]⟩

/-- A `FileUpload` with a fixed well-formed digest string. -/
def fuA : FileUpload :=
  ⟨fileA, "0123456789abcdef0123456789abcdef0123456789abcdef0123456789abcdef", 0⟩

/-- The `FileUpload` actually produced by the upload gate for `fileA`. -/
def fuSel : FileUpload := ⟨fileA, calculateSHA256 fileA, 0⟩

/-- A benign remote analysis result. -/
def resultSafe : ScanResult := ⟨"fh-1", .safe, 0, "hc", "he", "st", "be", "ex"⟩

/-- A remote result whose echoed `fileHashId` is not the local fingerprint. -/
def resultMismatch : ScanResult :=
  ⟨"not-the-local-fingerprint", .safe, 0, "hc", "he", "st", "be", "ex"⟩

/-- A fully healthy environment: readable text, valid configuration, an
HTTP-success response and a `success: true` envelope. -/
def envOk : ScanEnv :=
  { readFileResult := .ok "hello world!",
    supabaseUrl := some "https://example.supabase.co",
    supabaseAnonKey := some "anon-key",
    fetchResult := .ok ⟨true, "OK"⟩,
    jsonResult := .ok ⟨true, "abc", none, resultSafe⟩,
    timestamp := "2025-06-23T14:33:36.000Z" }

/-- `envOk` with the network call rejecting with a browser `TypeError`. -/
def envFetchFail : ScanEnv := { envOk with fetchResult := .error (.errorObj "Failed to fetch") }

/-- `envOk` with the endpoint URL absent. -/
def envNoCfg : ScanEnv := { envOk with supabaseUrl := none }

/-- An envelope carrying `success: false` with an empty service error string. -/
def scanDataEmptyErr : ScanData := ⟨false, "", some "", resultSafe⟩

/-- `envOk` delivering `scanDataEmptyErr`. -/
def envEmptyErr : ScanEnv := { envOk with jsonResult := .ok scanDataEmptyErr }

/-- An envelope carrying `success: false` with the service error `bad request`. -/
def scanDataBadReq : ScanData := ⟨false, "", some "bad request", resultSafe⟩

/-- `envOk` delivering `scanDataBadReq`. -/
def envBadReq : ScanEnv := { envOk with jsonResult := .ok scanDataBadReq }

/-- `envOk` with the remote service answering HTTP 500. -/
def env500 : ScanEnv := { envOk with fetchResult := .ok ⟨false, "Internal Server Error"⟩ }

/-- `envOk` with `readFileAsText` rejecting (binary content). -/
def envBinRead : ScanEnv := { envOk with readFileResult := .error .nonError }

/-- `envOk` answering with the mismatched-identity result. -/
def envMismatch : ScanEnv := { envOk with jsonResult := .ok ⟨true, "abc", none, resultMismatch⟩ }

/-- The scan record a successful `envMismatch` scan of `fileA` produces. -/
def recMismatch : CompleteScanData :=
  ⟨"abc", fileA.name, fileA.size, calculateSHA256 fileA, envMismatch.timestamp, resultMismatch⟩

/-- A submission whose declared size is one byte over the upload limit. -/
def fileBig : JsFile := ⟨"big.bin", 100 * 1024 * 1024 + 1, []⟩

/-! ## Supporting lemmas -/

lemma mem_wordBytesBE_lt (w : Nat) : ∀ b ∈ wordBytesBE w, b < 256 := by
  intro b hb
  simp only [wordBytesBE, List.mem_cons, List.not_mem_nil, or_false] at hb
  rcases hb with hb | hb | hb | hb <;> omega

lemma mem_sha256_lt (msg : List Nat) : ∀ b ∈ sha256 msg, b < 256 := by
  intro b hb
  simp only [sha256, hash8Bytes, List.mem_append] at hb
  rcases hb with ((((((hb | hb) | hb) | hb) | hb) | hb) | hb) | hb <;>
    exact mem_wordBytesBE_lt _ b hb

lemma sha256_length (msg : List Nat) : (sha256 msg).length = 32 := by
  simp [sha256, hash8Bytes, wordBytesBE]

set_option maxRecDepth 4000 in
lemma byteHex_facts : ∀ b : Fin 256,
    (byteHex b.val).length = 2 ∧ ∀ c ∈ byteHex b.val, c ∈ hexAlphabet := by
  decide

lemma calculateSHA256_length (file : JsFile) : (calculateSHA256 file).length = 64 := by
  show (String.mk (((sha256 file.bytes).map byteHex).flatten)).length = 64
  have hlen : ∀ x ∈ (sha256 file.bytes).map byteHex, x.length = 2 := by
    intro x hx
    rcases List.mem_map.mp hx with ⟨b, hb, rfl⟩
    exact (byteHex_facts ⟨b, mem_sha256_lt _ b hb⟩).1
  have hsum := List.sum_eq_card_nsmul ((sha256 file.bytes).map byteHex |>.map List.length) 2 (by
    intro x hx
    rcases List.mem_map.mp hx with ⟨y, hy, rfl⟩
    exact hlen y hy)
  simp only [String.length, String.mk]
  rw [List.length_flatten, hsum]
  simp [sha256_length]

lemma calculateSHA256_mem_hex (file : JsFile) :
    ∀ c ∈ (calculateSHA256 file).toList, c ∈ hexAlphabet := by
  intro c hc
  have hc2 : c ∈ ((sha256 file.bytes).map byteHex).flatten := hc
  rcases List.mem_flatten.mp hc2 with ⟨l, hl, hcl⟩
  rcases List.mem_map.mp hl with ⟨b, hb, rfl⟩
  exact (byteHex_facts ⟨b, mem_sha256_lt _ b hb⟩).2 c hcl

lemma performScan_cases (env : ScanEnv) (fu : FileUpload) :
    (∃ msg, (performScan env fu).events = pacingEvents ++ [⟨.error, 0, msg⟩]
       ∧ (performScan env fu).scanResults = none)
    ∨ ((performScan env fu).events = pacingEvents ++ [⟨.complete, 100, "Analysis complete!"⟩]
       ∧ ∃ scanData, env.jsonResult = Except.ok scanData ∧ scanData.success = true
           ∧ (performScan env fu).scanResults =
               some ⟨scanData.scanId, fu.file.name, fu.file.size, fu.sha256Hash,
                     env.timestamp, scanData.result⟩) := by
  cases hcfg : configInvalid env.supabaseUrl env.supabaseAnonKey with
  | true => exact Or.inl ⟨configErrorMessage, by simp [performScan, hcfg], by simp [performScan, hcfg]⟩
  | false =>
    cases hfetch : env.fetchResult with
    | error e =>
        exact Or.inl ⟨caughtMessage e, by simp [performScan, hcfg, hfetch],
          by simp [performScan, hcfg, hfetch]⟩
    | ok response =>
      cases hok : response.ok with
      | false =>
          exact Or.inl ⟨"Scan failed: " ++ response.statusText,
            by simp [performScan, hcfg, hfetch, hok], by simp [performScan, hcfg, hfetch, hok]⟩
      | true =>
        cases hjson : env.jsonResult with
        | error e =>
            exact Or.inl ⟨caughtMessage e, by simp [performScan, hcfg, hfetch, hok, hjson],
              by simp [performScan, hcfg, hfetch, hok, hjson]⟩
        | ok scanData =>
          cases hsucc : scanData.success with
          | false =>
              exact Or.inl ⟨jsOrString scanData.error "Scan failed",
                by simp [performScan, hcfg, hfetch, hok, hjson, hsucc],
                by simp [performScan, hcfg, hfetch, hok, hjson, hsucc]⟩
          | true =>
              exact Or.inr ⟨by simp [performScan, hcfg, hfetch, hok, hjson, hsucc],
                scanData, rfl, hsucc, by simp [performScan, hcfg, hfetch, hok, hjson, hsucc]⟩

lemma performScan_requests (env : ScanEnv) (fu : FileUpload) :
    (performScan env fu).requests =
      if configInvalid env.supabaseUrl env.supabaseAnonKey then [] else [buildRequest env fu] := by
  cases hcfg : configInvalid env.supabaseUrl env.supabaseAnonKey with
  | true => simp [performScan, hcfg]
  | false =>
    cases hfetch : env.fetchResult with
    | error e => simp [performScan, hcfg, hfetch]
    | ok response =>
      cases hok : response.ok with
      | false => simp [performScan, hcfg, hfetch, hok]
      | true =>
        cases hjson : env.jsonResult with
        | error e => simp [performScan, hcfg, hfetch, hok, hjson]
        | ok scanData =>
          cases hsucc : scanData.success with
          | false => simp [performScan, hcfg, hfetch, hok, hjson, hsucc]
          | true => simp [performScan, hcfg, hfetch, hok, hjson, hsucc]

lemma scanFailed_append_ne_empty (s : String) : "Scan failed: " ++ s ≠ "" := by
  intro hcontra
  have hlen := congrArg String.length hcontra
  rw [String.length_append] at hlen
  have h13 : ("Scan failed: " : String).length = 13 := rfl
  rw [h13] at hlen
  have h0 : ("" : String).length = 0 := rfl
  rw [h0] at hlen
  exact absurd hlen (by omega)

lemma jsOrString_scanFailed_ne_empty (o : Option String) :
    jsOrString o "Scan failed" ≠ "" := by
  rcases o with _ | s
  · decide
  · show (if s == "" then "Scan failed" else s) ≠ ""
    cases hs : (s == "") with
    | true => simp
    | false => simpa [hs] using fun hcontra => by simp [hcontra] at hs

lemma handleFileSelect_selected (file : JsFile) (fu : FileUpload)
    (hsel : (handleFileSelect file).selected = some fu) :
    fu = ⟨file, calculateSHA256 file, 0⟩ := by
  unfold handleFileSelect at hsel
  cases hv : validateFile file with
  | some m => rw [hv] at hsel; exact absurd hsel (by simp)
  | none =>
      rw [hv] at hsel
      simp only [Option.some.injEq] at hsel
      exact hsel.symm

/-! ## The claims -/

/-- C1: every scan that reaches the terminal success state emits exactly the
stages uploading (intake), hashing (fingerprinting), hash-check
(reputation-check), heuristic, static (static-pattern), behavioral, complete,
in this order, no stage re-entered, with non-decreasing percentages ending
at 100. -/
theorem spec_C1 (env : ScanEnv) (fu : FileUpload)
    (hc : ScanStage.complete ∈ ((performScan env fu).events.map ScanProgress.stage)) :
    ((performScan env fu).events.map ScanProgress.stage)
      = [.uploading, .hashing, .hashCheck, .heuristic, .static, .behavioral, .complete]
    ∧ ((performScan env fu).events.map ScanProgress.stage).Nodup
    ∧ ((performScan env fu).events.map ScanProgress.progress).Chain' (· ≤ ·)
    ∧ ((performScan env fu).events.map ScanProgress.progress).getLast? = some 100 := by
  rcases performScan_cases env fu with ⟨msg, hev, -⟩ | ⟨hev, -⟩
  · rw [hev] at hc
    simp [pacingEvents] at hc
  · rw [hev]
    refine ⟨by decide, by decide, ?_, by decide⟩
    simp [pacingEvents, List.chain'_cons]

/-- Witness for C1 at the healthy environment `envOk`. -/
theorem spec_C1_witness :
    ScanStage.complete ∈ ((performScan envOk fuA).events.map ScanProgress.stage)
    ∧ (((performScan envOk fuA).events.map ScanProgress.stage)
        = [.uploading, .hashing, .hashCheck, .heuristic, .static, .behavioral, .complete]
      ∧ ((performScan envOk fuA).events.map ScanProgress.stage).Nodup
      ∧ ((performScan envOk fuA).events.map ScanProgress.progress).Chain' (· ≤ ·)
      ∧ ((performScan envOk fuA).events.map ScanProgress.progress).getLast? = some 100) :=
  ⟨by decide, spec_C1 envOk fuA (by decide)⟩

/-- C2: fingerprinting is deterministic and always yields a 64-character
lowercase hexadecimal string (the SHA-256 digest of the buffer rendered in
hex). -/
theorem spec_C2 (file : JsFile) :
    calculateSHA256 file = calculateSHA256 file
    ∧ (calculateSHA256 file).length = 64
    ∧ ∀ c ∈ (calculateSHA256 file).toList, c ∈ hexAlphabet :=
  ⟨rfl, calculateSHA256_length file, calculateSHA256_mem_hex file⟩

/-- C3: whenever a scan fails (and the platform delivers well-formed error
values), the event sequence is the six pacing events followed by exactly one
terminal failed event with percentage 0 and a non-empty message, and nothing
follows it. -/
theorem spec_C3 (env : ScanEnv) (fu : FileUpload)
    (hwf : envErrorMessagesOk env = true)
    (hf : ScanStage.error ∈ ((performScan env fu).events.map ScanProgress.stage)) :
    ∃ msg, (performScan env fu).events = pacingEvents ++ [⟨.error, 0, msg⟩]
      ∧ msg ≠ ""
      ∧ ∀ e ∈ pacingEvents, e.stage ≠ ScanStage.error := by
  cases hcfg : configInvalid env.supabaseUrl env.supabaseAnonKey with
  | true => exact ⟨configErrorMessage, by simp [performScan, hcfg], by decide, by decide⟩
  | false =>
    cases hfetch : env.fetchResult with
    | error e =>
        refine ⟨caughtMessage e, by simp [performScan, hcfg, hfetch], ?_, by decide⟩
        cases e with
        | errorObj m =>
            simp only [envErrorMessagesOk, hfetch, Bool.and_eq_true] at hwf
            simpa [caughtMessage] using fun hcontra => by simp [hcontra] at hwf
        | nonError => decide
    | ok response =>
      cases hok : response.ok with
      | false =>
          exact ⟨"Scan failed: " ++ response.statusText,
            by simp [performScan, hcfg, hfetch, hok],
            scanFailed_append_ne_empty response.statusText, by decide⟩
      | true =>
        cases hjson : env.jsonResult with
        | error e =>
            refine ⟨caughtMessage e, by simp [performScan, hcfg, hfetch, hok, hjson], ?_, by decide⟩
            cases e with
            | errorObj m =>
                simp only [envErrorMessagesOk, hjson, Bool.and_eq_true] at hwf
                simpa [caughtMessage] using fun hcontra => by simp [hcontra] at hwf
            | nonError => decide
        | ok scanData =>
          cases hsucc : scanData.success with
          | false =>
              exact ⟨jsOrString scanData.error "Scan failed",
                by simp [performScan, hcfg, hfetch, hok, hjson, hsucc],
                jsOrString_scanFailed_ne_empty scanData.error, by decide⟩
          | true =>
              exfalso
              have hev : (performScan env fu).events
                  = pacingEvents ++ [⟨.complete, 100, "Analysis complete!"⟩] := by
                simp [performScan, hcfg, hfetch, hok, hjson, hsucc]
              rw [hev] at hf
              exact absurd hf (by decide)

/-- Witness for C3 at an environment whose network call rejects. -/
theorem spec_C3_witness :
    envErrorMessagesOk envFetchFail = true
    ∧ ScanStage.error ∈ ((performScan envFetchFail fuA).events.map ScanProgress.stage)
    ∧ ∃ msg, (performScan envFetchFail fuA).events = pacingEvents ++ [⟨.error, 0, msg⟩]
        ∧ msg ≠ ""
        ∧ ∀ e ∈ pacingEvents, e.stage ≠ ScanStage.error :=
  ⟨by decide, by decide, spec_C3 envFetchFail fuA (by decide) (by decide)⟩

/-- C4: with absent or placeholder configuration the orchestrator performs no
network request and terminates failed with a message that references
configuration. -/
theorem spec_C4 (env : ScanEnv) (fu : FileUpload)
    (hcfg : configInvalid env.supabaseUrl env.supabaseAnonKey = true) :
    (performScan env fu).requests = []
    ∧ (performScan env fu).events.getLast? = some ⟨.error, 0, configErrorMessage⟩
    ∧ ∃ s t : String, configErrorMessage = s ++ "configuration" ++ t := by
  refine ⟨?_, ?_, "Supabase ",
    " missing or using placeholder values. Please update your .env file with actual Supabase URL and anon key.",
    by decide⟩
  · simp [performScan, hcfg]
  · simp [performScan, hcfg, pacingEvents]

/-- Witness for C4 at an environment with no endpoint URL. -/
theorem spec_C4_witness :
    configInvalid envNoCfg.supabaseUrl envNoCfg.supabaseAnonKey = true
    ∧ ((performScan envNoCfg fuA).requests = []
      ∧ (performScan envNoCfg fuA).events.getLast? = some ⟨.error, 0, configErrorMessage⟩
      ∧ ∃ s t : String, configErrorMessage = s ++ "configuration" ++ t) :=
  ⟨by decide, spec_C4 envNoCfg fuA (by decide)⟩

/-- C5 (amended): on an HTTP-success response whose envelope carries
`success: false`, the terminal message equals the service-supplied error
string when a NON-EMPTY one is present; when the error string is absent or
empty, the generic message `Scan failed` is used instead (JS `||` treats the
empty string as absent). -/
theorem spec_C5 (env : ScanEnv) (fu : FileUpload) (response : HttpResponse) (scanData : ScanData)
    (hcfg : configInvalid env.supabaseUrl env.supabaseAnonKey = false)
    (hfetch : env.fetchResult = .ok response)
    (hok : response.ok = true)
    (hjson : env.jsonResult = .ok scanData)
    (hsucc : scanData.success = false) :
    (∀ s, scanData.error = some s → s ≠ "" →
        (performScan env fu).events.getLast? = some ⟨.error, 0, s⟩)
    ∧ ((scanData.error = none ∨ scanData.error = some "") →
        (performScan env fu).events.getLast? = some ⟨.error, 0, "Scan failed"⟩) := by
  have hev : (performScan env fu).events
      = pacingEvents ++ [⟨.error, 0, jsOrString scanData.error "Scan failed"⟩] := by
    simp [performScan, hcfg, hfetch, hok, hjson, hsucc]
  constructor
  · intro s hs hne
    rw [hev, List.getLast?_concat]
    simp [jsOrString, hs, hne]
  · intro hcase
    rw [hev, List.getLast?_concat]
    rcases hcase with hc | hc <;> simp [jsOrString, hc]

/-- Counterexample to C5 as stated: a service-supplied error string is
present (`some ""`), yet the terminal message is the generic `Scan failed`,
not the supplied string. -/
theorem spec_C5_counterexample :
    envEmptyErr.jsonResult = .ok scanDataEmptyErr
    ∧ scanDataEmptyErr.error = some ""
    ∧ (performScan envEmptyErr fuA).events.getLast? = some ⟨.error, 0, "Scan failed"⟩
    ∧ (performScan envEmptyErr fuA).events.getLast? ≠ some ⟨.error, 0, ""⟩ := by
  refine ⟨rfl, rfl, by decide, by decide⟩

/-- Witness for the amended C5: envelope `success: false, error: bad request`
yields the terminal message `bad request`. -/
theorem spec_C5_witness :
    configInvalid envBadReq.supabaseUrl envBadReq.supabaseAnonKey = false
    ∧ envBadReq.fetchResult = .ok ⟨true, "OK"⟩
    ∧ envBadReq.jsonResult = .ok scanDataBadReq
    ∧ scanDataBadReq.success = false
    ∧ scanDataBadReq.error = some "bad request"
    ∧ (performScan envBadReq fuA).events.getLast? = some ⟨.error, 0, "bad request"⟩ :=
  ⟨by decide, rfl, rfl, rfl, rfl,
    (spec_C5 envBadReq fuA ⟨true, "OK"⟩ scanDataBadReq (by decide) rfl rfl rfl rfl).1
      "bad request" rfl (by decide)⟩

/-- C6: a non-success HTTP status terminates the scan with the message
`Scan failed: ` followed by the status description, and no scan record is
ever constructed on any failed scan. -/
theorem spec_C6 (env : ScanEnv) (fu : FileUpload) (response : HttpResponse)
    (hcfg : configInvalid env.supabaseUrl env.supabaseAnonKey = false)
    (hfetch : env.fetchResult = .ok response)
    (hok : response.ok = false) :
    ((performScan env fu).events.getLast?
        = some ⟨.error, 0, "Scan failed: " ++ response.statusText⟩
      ∧ (performScan env fu).scanResults = none)
    ∧ ∀ env' fu', ScanStage.error ∈ ((performScan env' fu').events.map ScanProgress.stage) →
        (performScan env' fu').scanResults = none := by
  refine ⟨⟨?_, ?_⟩, ?_⟩
  · have hev : (performScan env fu).events
        = pacingEvents ++ [⟨.error, 0, "Scan failed: " ++ response.statusText⟩] := by
      simp [performScan, hcfg, hfetch, hok]
    rw [hev, List.getLast?_concat]
  · simp [performScan, hcfg, hfetch, hok]
  · intro env' fu' hf
    rcases performScan_cases env' fu' with ⟨msg, -, hres⟩ | ⟨hev, -⟩
    · exact hres
    · rw [hev] at hf
      simp [pacingEvents] at hf

/-- Witness for C6 at an environment answering HTTP 500. -/
theorem spec_C6_witness :
    configInvalid env500.supabaseUrl env500.supabaseAnonKey = false
    ∧ env500.fetchResult = .ok ⟨false, "Internal Server Error"⟩
    ∧ (((performScan env500 fuA).events.getLast?
          = some ⟨.error, 0, "Scan failed: " ++ "Internal Server Error"⟩
        ∧ (performScan env500 fuA).scanResults = none)
      ∧ ∀ env' fu', ScanStage.error ∈ ((performScan env' fu').events.map ScanProgress.stage) →
          (performScan env' fu').scanResults = none) :=
  ⟨by decide, rfl, spec_C6 env500 fuA ⟨false, "Internal Server Error"⟩ (by decide) rfl rfl⟩

/-- C7: a text-decoding failure is swallowed: the outbound request is still
sent with an empty content field and, given a well-formed successful remote
response, the scan reaches the complete state with a results record. -/
theorem spec_C7 (env : ScanEnv) (fu : FileUpload) (e : JsThrown)
    (response : HttpResponse) (scanData : ScanData)
    (hread : env.readFileResult = .error e)
    (hcfg : configInvalid env.supabaseUrl env.supabaseAnonKey = false)
    (hfetch : env.fetchResult = .ok response)
    (hok : response.ok = true)
    (hjson : env.jsonResult = .ok scanData)
    (hsucc : scanData.success = true) :
    (performScan env fu).requests = [buildRequest env fu]
    ∧ (buildRequest env fu).body.fileContent = ""
    ∧ (performScan env fu).events.getLast? = some ⟨.complete, 100, "Analysis complete!"⟩
    ∧ (performScan env fu).scanResults.isSome = true := by
  refine ⟨?_, ?_, ?_, ?_⟩
  · rw [performScan_requests, if_neg (by simp [hcfg])]
  · simp [buildRequest, hread]
  · have hev : (performScan env fu).events
        = pacingEvents ++ [⟨.complete, 100, "Analysis complete!"⟩] := by
      simp [performScan, hcfg, hfetch, hok, hjson, hsucc]
    rw [hev, List.getLast?_concat]
  · simp [performScan, hcfg, hfetch, hok, hjson, hsucc]

/-- Witness for C7 at an environment whose file read rejects. -/
theorem spec_C7_witness :
    envBinRead.readFileResult = .error .nonError
    ∧ configInvalid envBinRead.supabaseUrl envBinRead.supabaseAnonKey = false
    ∧ ((performScan envBinRead fuA).requests = [buildRequest envBinRead fuA]
      ∧ (buildRequest envBinRead fuA).body.fileContent = ""
      ∧ (performScan envBinRead fuA).events.getLast?
          = some ⟨.complete, 100, "Analysis complete!"⟩
      ∧ (performScan envBinRead fuA).scanResults.isSome = true) :=
  ⟨rfl, by decide,
    spec_C7 envBinRead fuA .nonError ⟨true, "OK"⟩ ⟨true, "abc", none, resultSafe⟩
      rfl (by decide) rfl rfl rfl rfl⟩

/-- C8: on every successfully completed scan of an uploaded file, the
record's fingerprint equals the locally computed SHA-256 of the submitted
bytes, whatever identity the remote service echoes. -/
theorem spec_C8 (file : JsFile) (env : ScanEnv) (fu : FileUpload) (record : CompleteScanData)
    (hsel : (handleFileSelect file).selected = some fu)
    (hrec : (performScan env fu).scanResults = some record) :
    record.sha256Hash = calculateSHA256 file := by
  have hfu := handleFileSelect_selected file fu hsel
  rcases performScan_cases env fu with ⟨msg, -, hres⟩ | ⟨-, scanData, -, -, hres⟩
  · rw [hres] at hrec; exact absurd hrec (by simp)
  · rw [hres] at hrec
    simp only [Option.some.injEq] at hrec
    rw [← hrec, hfu]

/-- Witness for C8: a remote result echoing a mismatched `fileHashId` still
yields a record whose fingerprint is the local digest. -/
theorem spec_C8_witness :
    (handleFileSelect fileA).selected = some fuSel
    ∧ (performScan envMismatch fuSel).scanResults = some recMismatch
    ∧ recMismatch.result.fileHashId ≠ calculateSHA256 fileA
    ∧ recMismatch.sha256Hash = calculateSHA256 fileA :=
  ⟨rfl, rfl,
    fun hcontra => by
      have hlen := congrArg String.length hcontra
      rw [calculateSHA256_length] at hlen
      exact absurd hlen (by decide),
    spec_C8 fileA envMismatch fuSel recMismatch rfl rfl⟩

/-- C9: every scan that reaches the remote invocation sends exactly one
POST request to the configured endpoint with a bearer credential and the
four-field JSON body (64-hex-character fingerprint, file name, file size,
sampled content), and no scan ever sends more than one request. -/
theorem spec_C9 (file : JsFile) (env : ScanEnv) (fu : FileUpload)
    (hsel : (handleFileSelect file).selected = some fu)
    (hcfg : configInvalid env.supabaseUrl env.supabaseAnonKey = false) :
    ((performScan env fu).requests = [buildRequest env fu]
      ∧ (buildRequest env fu).method = "POST"
      ∧ (buildRequest env fu).url = env.supabaseUrl.getD "" ++ "/functions/v1/malware-scan"
      ∧ (buildRequest env fu).authorization = "Bearer " ++ env.supabaseAnonKey.getD ""
      ∧ (buildRequest env fu).body.sha256Hash = calculateSHA256 file
      ∧ (buildRequest env fu).body.sha256Hash.length = 64
      ∧ (buildRequest env fu).body.fileName = file.name
      ∧ (buildRequest env fu).body.fileSize = file.size)
    ∧ ∀ env' fu', ((performScan env' fu').requests).length ≤ 1 := by
  have hfu := handleFileSelect_selected file fu hsel
  refine ⟨⟨?_, rfl, rfl, rfl, ?_, ?_, ?_, ?_⟩, ?_⟩
  · rw [performScan_requests, if_neg (by simp [hcfg])]
  · rw [hfu]; rfl
  · show fu.sha256Hash.length = 64
    rw [hfu]
    exact calculateSHA256_length file
  · rw [hfu]; rfl
  · rw [hfu]; rfl
  · intro env' fu'
    rw [performScan_requests]
    cases configInvalid env'.supabaseUrl env'.supabaseAnonKey <;> simp

/-- Witness for C9 at the healthy environment and the uploaded `fileA`. -/
theorem spec_C9_witness :
    (handleFileSelect fileA).selected = some fuSel
    ∧ configInvalid envOk.supabaseUrl envOk.supabaseAnonKey = false
    ∧ (((performScan envOk fuSel).requests = [buildRequest envOk fuSel]
        ∧ (buildRequest envOk fuSel).method = "POST"
        ∧ (buildRequest envOk fuSel).url
            = envOk.supabaseUrl.getD "" ++ "/functions/v1/malware-scan"
        ∧ (buildRequest envOk fuSel).authorization = "Bearer " ++ envOk.supabaseAnonKey.getD ""
        ∧ (buildRequest envOk fuSel).body.sha256Hash = calculateSHA256 fileA
        ∧ (buildRequest envOk fuSel).body.sha256Hash.length = 64
        ∧ (buildRequest envOk fuSel).body.fileName = fileA.name
        ∧ (buildRequest envOk fuSel).body.fileSize = fileA.size)
      ∧ ∀ env' fu', ((performScan env' fu').requests).length ≤ 1) :=
  ⟨rfl, by decide, spec_C9 fileA envOk fuSel rfl (by decide)⟩

/-- C10: a file whose declared size exceeds 100 MiB is rejected by the upload
gate with the size-limit error message, before any fingerprint is computed,
and the file-selected callback never fires. -/
theorem spec_C10 (file : JsFile) (hsize : file.size > 100 * 1024 * 1024) :
    (handleFileSelect file).errorMsg
      = some ("File size exceeds the maximum limit of " ++ formatFileSize MAX_FILE_SIZE)
    ∧ (handleFileSelect file).hashComputed = false
    ∧ (handleFileSelect file).selected = none := by
  have hv : validateFile file
      = some ("File size exceeds the maximum limit of " ++ formatFileSize MAX_FILE_SIZE) := by
    unfold validateFile MAX_FILE_SIZE
    rw [if_pos hsize]
  unfold handleFileSelect
  rw [hv]
  exact ⟨rfl, rfl, rfl⟩

/-- Witness for C10 at a file one byte over the limit. -/
theorem spec_C10_witness :
    fileBig.size > 100 * 1024 * 1024
    ∧ ((handleFileSelect fileBig).errorMsg
        = some ("File size exceeds the maximum limit of " ++ formatFileSize MAX_FILE_SIZE)
      ∧ (handleFileSelect fileBig).hashComputed = false
      ∧ (handleFileSelect fileBig).selected = none) :=
  ⟨by decide, spec_C10 fileBig (by decide)⟩
